import Mathlib

set_option maxRecDepth 100000

/-!
# Response-validation authorization gateway: a shallow embedding

This file embeds the access-control core of the `label-iq` repository in
Lean 4 and proves properties of it against its specification.

Embedded code:
* `server/bedrock.ts` — `ROLE_VIEW_PERMISSIONS`, `getAllowedViewsForRole`,
  and the response-validation logic inside `chatWithDenodoAI` (the body of
  the `res.on('end')` handler for a 2xx response with a parsed JSON body,
  lines 239-345), together with the one-shot settlement discipline of the
  surrounding Promise executor (the `settled` flag, lines 174-375).
* `server/routes.ts` — the error-to-HTTP-status mapping of the `/api/chat`
  route's catch block (lines 230-242).

Modelling conventions:
* Machine integers of the source are `Nat` (no arithmetic here overflows).
* `JSON.parse` of the full response body is modelled by taking the parsed
  `DenodoAIResponse` structure as input; the parse-failure branch is a
  separate constructor of the settlement event type.
* `JSON.parse` applied to the `tables_used` field (declared by the engine
  contract to be a JSON-encoded array of view names) is modelled by an
  executable JSON string-array parser; JSON values outside the contract's
  declared type (numbers, objects, mixed arrays) are outside the model.
* Wall-clock fields (`responseTime`) are not modelled.
-/

/-- Character-wise ASCII lowering; models `String.prototype.toLowerCase`
for the ASCII patterns the source compares against. -/
def lowerAscii (s : String) : String :=
  String.mk (s.toList.map Char.toLower)

/-- Does `pat` occur as a contiguous block somewhere in `l`? -/
def isInfixChars (pat : List Char) : List Char → Bool
  | [] => pat.isEmpty
  | c :: cs => pat.isPrefixOf (c :: cs) || isInfixChars pat cs

/-- Substring containment; models `String.prototype.includes(pat)`. -/
def containsSubstr (s pat : String) : Bool :=
  isInfixChars pat.toList s.toList

/-- Prefix test; models `String.prototype.startsWith(pre)`. -/
def startsWithStr (s pre : String) : Bool :=
  pre.toList.isPrefixOf s.toList

/-- bedrock.ts lines 257-262: `data.answer && (answer.toLowerCase()
.includes("sorry") || ... )`.  The `data.answer &&` truthiness test makes
an absent or empty answer count as "not a no-answer response". -/
def isNoAnswerResponse : Option String → Bool
  | none => false
  | some a =>
    (a != "") &&
    (containsSubstr (lowerAscii a) "sorry" ||
     containsSubstr (lowerAscii a) "can\x27t help" ||
     containsSubstr (lowerAscii a) "cannot help" ||
     containsSubstr (lowerAscii a) "couldn\x27t find")

/-- bedrock.ts line 302: `table.includes('.') ? table.split('.').pop() ||
table : table`.  `split('.').pop()` is the suffix after the last `'.'`
(realised here by taking characters from the right up to the first `'.'`);
the `|| table` fallback fires when that suffix is empty (trailing dot). -/
def stripSchema (table : String) : String :=
  if table.toList.contains '.' then
    let suffix := String.mk ((table.toList.reverse.takeWhile (fun c => c != '.')).reverse)
    if suffix = "" then table else suffix
  else table

/-- bedrock.ts lines 83-93: the `patient` entry of `ROLE_VIEW_PERMISSIONS`
(excludes `master_safety_risk`). -/
def patientViews : List String :=
  ["drug_purpose_and_identity", "clinical_pharmacology", "dosing_and_administration",
   "interactions", "overdose_emergency", "product_and_label_index",
   "specific_population", "storage_and_handling"]

/-- bedrock.ts lines 94-104: the `physician` entry (all nine views). -/
def physicianViews : List String :=
  ["drug_purpose_and_identity", "clinical_pharmacology", "dosing_and_administration",
   "interactions", "master_safety_risk", "overdose_emergency",
   "product_and_label_index", "specific_population", "storage_and_handling"]

/-- bedrock.ts lines 105-115: the `judge` entry (all nine views). -/
def judgeViews : List String :=
  ["drug_purpose_and_identity", "clinical_pharmacology", "dosing_and_administration",
   "interactions", "master_safety_risk", "overdose_emergency",
   "product_and_label_index", "specific_population", "storage_and_handling"]

/-- bedrock.ts lines 82-116: the `ROLE_VIEW_PERMISSIONS` record, as a
lookup over its three own-property keys. -/
def ROLE_VIEW_PERMISSIONS (role : String) : Option (List String) :=
  if role = "patient" then some patientViews
  else if role = "physician" then some physicianViews
  else if role = "judge" then some judgeViews
  else none

/-- bedrock.ts lines 121-123: `ROLE_VIEW_PERMISSIONS[userRole] ||
ROLE_VIEW_PERMISSIONS.judge`.  An array is truthy in JS even when empty,
so the fallback fires exactly when the key is absent. -/
def getAllowedViewsForRole (userRole : String) : List String :=
  (ROLE_VIEW_PERMISSIONS userRole).getD judgeViews

/-- JSON whitespace. -/
def isJsonWs (c : Char) : Bool :=
  c = ' ' || c = '\t' || c = '\n' || c = '\r'

/-- Drop leading JSON whitespace. -/
def skipWs : List Char → List Char
  | [] => []
  | c :: cs => if isJsonWs c then skipWs cs else c :: cs

/-- Value of a hexadecimal digit. -/
def hexVal (c : Char) : Option Nat :=
  if '0' ≤ c ∧ c ≤ '9' then some (c.toNat - '0'.toNat)
  else if 'a' ≤ c ∧ c ≤ 'f' then some (c.toNat - 'a'.toNat + 10)
  else if 'A' ≤ c ∧ c ≤ 'F' then some (c.toNat - 'A'.toNat + 10)
  else none

/-- Parse the characters of a JSON string after the opening quote, up to
and including the closing quote.  Returns the decoded characters and the
remaining input.  Fuel-indexed to keep the recursion structural; callers
supply fuel larger than the input length, so fuel never runs out.
Surrogate-pair recombination of `\uXXXX` escapes is not modelled. -/
def parseJStrChars : Nat → List Char → Option (List Char × List Char)
  | 0, _ => none
  | _ + 1, [] => none
  | fuel + 1, c :: cs =>
    if c = '"' then some ([], cs)
    else if c = '\\' then
      match cs with
      | [] => none
      | e :: cs2 =>
        if e = '"' then (parseJStrChars fuel cs2).map (fun p => ('"' :: p.1, p.2))
        else if e = '\\' then (parseJStrChars fuel cs2).map (fun p => ('\\' :: p.1, p.2))
        else if e = '/' then (parseJStrChars fuel cs2).map (fun p => ('/' :: p.1, p.2))
        else if e = 'b' then (parseJStrChars fuel cs2).map (fun p => ('\x08' :: p.1, p.2))
        else if e = 'f' then (parseJStrChars fuel cs2).map (fun p => ('\x0c' :: p.1, p.2))
        else if e = 'n' then (parseJStrChars fuel cs2).map (fun p => ('\n' :: p.1, p.2))
        else if e = 'r' then (parseJStrChars fuel cs2).map (fun p => ('\r' :: p.1, p.2))
        else if e = 't' then (parseJStrChars fuel cs2).map (fun p => ('\t' :: p.1, p.2))
        else if e = 'u' then
          match cs2 with
          | h1 :: h2 :: h3 :: h4 :: cs3 =>
            match hexVal h1, hexVal h2, hexVal h3, hexVal h4 with
            | some a, some b, some c2, some d =>
              (parseJStrChars fuel cs3).map
                (fun p => (Char.ofNat (((a * 16 + b) * 16 + c2) * 16 + d) :: p.1, p.2))
            | _, _, _, _ => none
          | _ => none
        else none
    else if c.toNat < 32 then none
    else (parseJStrChars fuel cs).map (fun p => (c :: p.1, p.2))

/-- Parse a comma-separated sequence of JSON strings, the cursor standing
on the first string's opening quote.  Returns the strings and the rest of
the input (whitespace after the last element already consumed). -/
def parseJElems : Nat → List Char → Option (List String × List Char)
  | 0, _ => none
  | fuel + 1, cs =>
    match cs with
    | '"' :: rest =>
      match parseJStrChars (rest.length + 1) rest with
      | none => none
      | some (chars, rest2) =>
        match skipWs rest2 with
        | ',' :: rest4 =>
          match parseJElems fuel (skipWs rest4) with
          | none => none
          | some (strs, rest5) => some (String.mk chars :: strs, rest5)
        | rest3 => some ([String.mk chars], rest3)
    | _ => none

/-- `JSON.parse` restricted to the engine contract's declared type for
`tables_used`: a JSON array of strings.  `none` models a thrown parse
error. -/
def jsonParseStringArray (s : String) : Option (List String) :=
  match skipWs s.toList with
  | '[' :: rest =>
    match skipWs rest with
    | ']' :: rest2 => if skipWs rest2 = [] then some [] else none
    | rest1 =>
      match parseJElems (rest1.length + 1) rest1 with
      | none => none
      | some (strs, rest2) =>
        match skipWs rest2 with
        | ']' :: rest3 => if skipWs rest3 = [] then some strs else none
        | _ => none
  | _ => none

/-- The runtime shape of the engine's `tables_used` field: a JSON-encoded
string or a native array (bedrock.ts line 243's `typeof` test). -/
inductive TablesUsedField where
  | str (s : String)
  | arr (l : List String)
deriving DecidableEq, Repr

/-- bedrock.ts lines 27-45, restricted to the fields the validator reads.
`answer`, `sql_query` and `tables_used` are optional in the interface;
`total_execution_time` is an opaque numeric passthrough. -/
structure DenodoAIResponse where
  answer : Option String
  tables_used : Option TablesUsedField
  sql_query : Option String
  total_execution_time : Option Nat
deriving DecidableEq, Repr

/-- bedrock.ts lines 240-249: `tablesUsed` starts as `[]`; a truthy
`tables_used` is JSON-parsed when it is a string (a thrown parse error
is caught and leaves `[]`) and used as-is when it is an array. -/
def parseTablesUsed : Option TablesUsedField → List String
  | none => []
  | some (TablesUsedField.str s) => (jsonParseStringArray s).getD []
  | some (TablesUsedField.arr l) => l

/-- bedrock.ts lines 16-25, without the wall-clock `responseTime` field. -/
structure ChatResponse where
  message : String
  model : String
  source : String
  tablesUsed : List String
  sqlQuery : Option String
  confidence : Nat
  executionTime : Option Nat
deriving DecidableEq, Repr

/-- A terminal settlement of the `chatWithDenodoAI` promise: `resolved`
carries the `ChatResponse`, `rejected` carries the `Error` message. -/
inductive ChatOutcome where
  | resolved (r : ChatResponse)
  | rejected (msg : String)
deriving DecidableEq, Repr

/-- bedrock.ts line 288 and elsewhere: the constant `model` field. -/
def modelName : String := "Claude via Denodo AI SDK + AWS Bedrock"

/-- bedrock.ts line 290 and elsewhere: the constant `source` field. -/
def sourceName : String := "Denodo AI SDK"

/-- bedrock.ts lines 269-272: the message of the fail-closed rejection
(two concatenated template literals). -/
def denyMessage : String :=
  "I\x27m sorry, I couldn\x27t find an answer to your question in the available drug information. Please try asking in a different way or select a drug from the list to get started."

/-- bedrock.ts lines 281-283: the rewritten "no answer" message. -/
def patientFriendlyMessage : String :=
  "I\x27m sorry, I couldn\x27t find information about that in our drug database. Could you try rephrasing your question or ask about a different topic related to this medication?"

/-- bedrock.ts line 312: the advisory suffix of the disclaim branch. -/
def disclaimerText : String :=
  "\n\n⚠️ IMPORTANT: This response includes information from technical safety assessments. Please discuss this information with your healthcare provider for complete guidance tailored to your situation."

/-- bedrock.ts lines 316 and 337: `data.answer || "No response generated"`
(JS `||` substitutes the default for an absent or empty answer). -/
def rawMessage (data : DenodoAIResponse) : String :=
  match data.answer with
  | none => "No response generated"
  | some a => if a = "" then "No response generated" else a

/-- bedrock.ts lines 322 and 333: `Math.min(95, 70 + tablesUsed.length * 3)`. -/
def confidenceFor (n : Nat) : Nat := min 95 (70 + n * 3)

/-- bedrock.ts lines 301-304: the entries of `tablesUsed` whose
schema-stripped name is not in `allowedViews`. -/
def unauthorizedViews (allowedViews tablesUsed : List String) : List String :=
  tablesUsed.filter (fun table => !(allowedViews.contains (stripSchema table)))

/-- bedrock.ts lines 332-345 (also reached by fall-through from the RBAC
block): the ordinary resolution passing the raw answer through. -/
def passThroughResolve (data : DenodoAIResponse) (tablesUsed : List String) : ChatOutcome :=
  ChatOutcome.resolved
    { message := rawMessage data, model := modelName, source := sourceName,
      tablesUsed := tablesUsed, sqlQuery := data.sql_query,
      confidence := confidenceFor tablesUsed.length,
      executionTime := data.total_execution_time }

/-- bedrock.ts lines 239-345: the decision taken by the `res.on('end')`
handler for a 2xx response whose body parsed.  The source tests, in
order, `len === 0 && !noAns` (deny), `len === 0 && noAns` (friendly
rewrite) and `unauthorized.length > 0` (disclaim); the first two are
rendered here as a nested conditional on `len === 0`, which selects the
same branch in every case. -/
def validateResponse (allowedViews : Option (List String)) (data : DenodoAIResponse) : ChatOutcome :=
  let tablesUsed := parseTablesUsed data.tables_used
  match allowedViews with
  | some av =>
    if 0 < av.length then
      if tablesUsed.length = 0 then
        if isNoAnswerResponse data.answer then
          ChatOutcome.resolved
            { message := patientFriendlyMessage, model := modelName, source := sourceName,
              tablesUsed := [], sqlQuery := data.sql_query, confidence := 50,
              executionTime := data.total_execution_time }
        else
          ChatOutcome.rejected denyMessage
      else
        if 0 < (unauthorizedViews av tablesUsed).length then
          ChatOutcome.resolved
            { message := rawMessage data ++ disclaimerText, model := modelName,
              source := sourceName, tablesUsed := tablesUsed, sqlQuery := data.sql_query,
              confidence := confidenceFor tablesUsed.length,
              executionTime := data.total_execution_time }
        else
          passThroughResolve data tablesUsed
    else passThroughResolve data tablesUsed
  | none => passThroughResolve data tablesUsed

/-- The `/api/chat` route's reply: 200 with the resolved body, or an
error status with an error string. -/
inductive HttpReply where
  | ok (r : ChatResponse)
  | err (status : Nat) (error : String)
deriving DecidableEq, Repr

/-- routes.ts lines 229-242: a resolved call is sent as JSON; a rejected
one lands in the catch block, which answers 403 when the message starts
with `"Access Denied:"` and a generic 500 otherwise. -/
def handleChatOutcome : ChatOutcome → HttpReply
  | ChatOutcome.resolved r => HttpReply.ok r
  | ChatOutcome.rejected msg =>
    if startsWithStr msg "Access Denied:" then HttpReply.err 403 msg
    else HttpReply.err 500 "Failed to process chat request"

/-- bedrock.ts lines 361-366 and 369-374: the message of the transport
and synchronous-exception rejections. -/
def transportErrorMessage : String := "Failed to generate response from Denodo AI SDK"

/-- An asynchronous completion delivered to the promise executor of
`chatWithDenodoAI`: the response `end` event (carrying the status code,
the raw body and the outcome of `JSON.parse` on it, `none` modelling a
thrown parse error), the request `error` event, or a synchronous
exception reaching the executor's catch block. -/
inductive SettleEvent where
  | endEvt (statusCode : Nat) (rawBody : String) (parsedBody : Option DenodoAIResponse)
  | errorEvt
  | catchEvt
deriving DecidableEq, Repr

/-- bedrock.ts lines 225-358: the outcome the `end` handler computes when
it is first to run: non-2xx statuses reject with the status and raw body,
parse failures reject, and a parsed 2xx body goes through the validator. -/
def endOutcome (allowedViews : Option (List String)) (statusCode : Nat)
    (rawBody : String) (parsedBody : Option DenodoAIResponse) : ChatOutcome :=
  if 200 ≤ statusCode ∧ statusCode < 300 then
    match parsedBody with
    | some data => validateResponse allowedViews data
    | none => ChatOutcome.rejected "Failed to parse response from Denodo AI SDK"
  else
    ChatOutcome.rejected ("Denodo AI SDK error (" ++ toString statusCode ++ "): " ++ rawBody)

/-- The promise executor's state: the `settled` flag (bedrock.ts line
176) and the terminal outcomes produced so far. -/
structure PromiseState where
  settled : Bool
  outcomes : List ChatOutcome
deriving DecidableEq, Repr

/-- bedrock.ts line 176: `let settled = false` with no outcome yet. -/
def initialPromiseState : PromiseState := { settled := false, outcomes := [] }

/-- One handler activation.  Every handler checks `settled` on entry
(bedrock.ts lines 227, 347, 353, 362, 370) and every terminal path inside
a handler sets `settled = true` immediately before its single resolve or
reject; handlers run atomically on the JS event loop, so an activation
either is a no-op or settles with exactly one outcome. -/
def handleEvent (allowedViews : Option (List String)) (st : PromiseState)
    (e : SettleEvent) : PromiseState :=
  if st.settled then st
  else
    match e with
    | SettleEvent.endEvt sc raw parsed =>
      { settled := true, outcomes := st.outcomes ++ [endOutcome allowedViews sc raw parsed] }
    | SettleEvent.errorEvt =>
      { settled := true, outcomes := st.outcomes ++ [ChatOutcome.rejected transportErrorMessage] }
    | SettleEvent.catchEvt =>
      { settled := true, outcomes := st.outcomes ++ [ChatOutcome.rejected transportErrorMessage] }

/-- Run one interleaving of completion events for a single call. -/
def runEvents (allowedViews : Option (List String)) (events : List SettleEvent) : PromiseState :=
  events.foldl (handleEvent allowedViews) initialPromiseState

/-- Replace the `tables_used` field with a native array; used to state
decision invariance under renaming of the reported identifiers. -/
def setTables (data : DenodoAIResponse) (l : List String) : DenodoAIResponse :=
  { data with tables_used := some (TablesUsedField.arr l) }

/-- Replace the `tablesUsed` field of a resolved outcome; rejections are
unchanged. -/
def setOutcomeTables : ChatOutcome → List String → ChatOutcome
  | ChatOutcome.resolved r, l => ChatOutcome.resolved { r with tablesUsed := l }
  | ChatOutcome.rejected m, _ => ChatOutcome.rejected m

lemma noAnswer_some_eq (a : String) :
    isNoAnswerResponse (some a) =
      (containsSubstr (lowerAscii a) "sorry" ||
       containsSubstr (lowerAscii a) "can\x27t help" ||
       containsSubstr (lowerAscii a) "cannot help" ||
       containsSubstr (lowerAscii a) "couldn\x27t find") := by
  by_cases ha : a = ""
  · subst ha; decide
  · have h1 : (a == "") = false := beq_eq_false_iff_ne.mpr ha
    simp [isNoAnswerResponse, bne, h1]

example : stripSchema "labeliq.master_safety_risk" = "master_safety_risk" := by decide

example : jsonParseStringArray " [\"a.b\", \"c\"] " = some ["a.b", "c"] := by decide

example : jsonParseStringArray "oops" = none := by decide

example : isNoAnswerResponse (some "Sorry, no luck") = true := by decide

example :
    validateResponse (some patientViews)
      { answer := some "V3 states that the dose is 10mg", tables_used := none,
        sql_query := none, total_execution_time := none } =
    ChatOutcome.rejected denyMessage := by decide

/-- C1 (fail-closed on missing provenance): for every non-empty
allowed-view list and every parsed 2xx engine response whose normalized
resources-used list is empty and whose answer is not a recognized
"no answer" pattern, `chatWithDenodoAI` settles by rejecting with the
fixed deny message; the engine's answer is never delivered. -/
theorem deny_on_missing_provenance (av : List String) (data : DenodoAIResponse)
    (hav : av ≠ []) (hT : parseTablesUsed data.tables_used = [])
    (hNo : isNoAnswerResponse data.answer = false) :
    validateResponse (some av) data = ChatOutcome.rejected denyMessage := by
  have hlen : 0 < av.length := List.length_pos.mpr hav
  simp [validateResponse, hT, hlen, hNo]

/-- Witness for C1: the patient role with an engine response carrying a
real answer but no `tables_used`. -/
theorem deny_on_missing_provenance_witness :
    patientViews ≠ [] ∧
    validateResponse (some patientViews)
      { answer := some "V3 states that the dose is 10mg", tables_used := none,
        sql_query := none, total_execution_time := none } =
      ChatOutcome.rejected denyMessage :=
  ⟨by decide,
   deny_on_missing_provenance patientViews
     { answer := some "V3 states that the dose is 10mg", tables_used := none,
       sql_query := none, total_execution_time := none }
     (by decide) (by decide) (by decide)⟩

/-- C5 (pass-through on genuine no-answer): for every non-empty
allowed-view list and every parsed engine response with an empty
normalized resources-used list and an answer matching a "no answer"
pattern, the call resolves with `tablesUsed = []` and the fixed
caller-friendly message, never the engine's raw wording. -/
theorem allow_on_no_answer (av : List String) (data : DenodoAIResponse)
    (hav : av ≠ []) (hT : parseTablesUsed data.tables_used = [])
    (hNo : isNoAnswerResponse data.answer = true) :
    validateResponse (some av) data = ChatOutcome.resolved
      { message := patientFriendlyMessage, model := modelName, source := sourceName,
        tablesUsed := [], sqlQuery := data.sql_query, confidence := 50,
        executionTime := data.total_execution_time } := by
  have hlen : 0 < av.length := List.length_pos.mpr hav
  simp [validateResponse, hT, hlen, hNo]

/-- Witness for C5: scenario B of the spec, `tables_used = []` and the
answer "Sorry, I couldn't find an answer." -/
theorem allow_on_no_answer_witness :
    patientViews ≠ [] ∧
    validateResponse (some patientViews)
      { answer := some "Sorry, I couldn\x27t find an answer.",
        tables_used := some (TablesUsedField.arr []),
        sql_query := none, total_execution_time := none } =
      ChatOutcome.resolved
        { message := patientFriendlyMessage, model := modelName, source := sourceName,
          tablesUsed := [], sqlQuery := none, confidence := 50, executionTime := none } :=
  ⟨by decide,
   allow_on_no_answer patientViews
     { answer := some "Sorry, I couldn\x27t find an answer.",
       tables_used := some (TablesUsedField.arr []),
       sql_query := none, total_execution_time := none }
     (by decide) (by decide) (by decide)⟩

/-- C8 (validation skipped without allowed views): when the
`allowedViews` argument is absent or the empty list, every parsed 2xx
response resolves with the raw answer; the deny, no-answer-rewrite and
disclaim branches are unreachable. -/
theorem rbac_skipped_without_allowed_views (av : Option (List String)) (data : DenodoAIResponse)
    (h : av = none ∨ av = some []) :
    validateResponse av data = ChatOutcome.resolved
      { message := rawMessage data, model := modelName, source := sourceName,
        tablesUsed := parseTablesUsed data.tables_used, sqlQuery := data.sql_query,
        confidence := confidenceFor (parseTablesUsed data.tables_used).length,
        executionTime := data.total_execution_time } := by
  rcases h with h | h <;> subst h <;> simp [validateResponse, passThroughResolve]

/-- Witness for C8: with `allowedViews = some []`, the response that the
fail-closed branch would deny (empty `tables_used`, real answer) resolves
with the raw answer instead. -/
theorem rbac_skipped_without_allowed_views_witness :
    validateResponse (some [])
      { answer := some "V3 states that the dose is 10mg", tables_used := none,
        sql_query := none, total_execution_time := none } =
      ChatOutcome.resolved
        { message := "V3 states that the dose is 10mg", model := modelName,
          source := sourceName, tablesUsed := [], sqlQuery := none,
          confidence := confidenceFor 0, executionTime := none } :=
  rbac_skipped_without_allowed_views (some [])
    { answer := some "V3 states that the dose is 10mg", tables_used := none,
      sql_query := none, total_execution_time := none }
    (Or.inr rfl)

/-- C9 (no-answer pattern): an answer is recognized as "no answer"
exactly when its lowercase form contains one of the four substrings; in
particular with empty provenance an answer whose lowercase form contains
"sorry" resolves with the rewritten friendly message instead of the
deny rejection. -/
theorem no_answer_pattern_characterization :
    (∀ a : String, isNoAnswerResponse (some a) =
      (containsSubstr (lowerAscii a) "sorry" ||
       containsSubstr (lowerAscii a) "can\x27t help" ||
       containsSubstr (lowerAscii a) "cannot help" ||
       containsSubstr (lowerAscii a) "couldn\x27t find")) ∧
    (∀ (av : List String) (data : DenodoAIResponse) (a : String),
      av ≠ [] → data.answer = some a →
      containsSubstr (lowerAscii a) "sorry" = true →
      parseTablesUsed data.tables_used = [] →
      validateResponse (some av) data = ChatOutcome.resolved
        { message := patientFriendlyMessage, model := modelName, source := sourceName,
          tablesUsed := [], sqlQuery := data.sql_query, confidence := 50,
          executionTime := data.total_execution_time }) := by
  refine ⟨noAnswer_some_eq, ?_⟩
  intro av data a hav ha hsor hT
  have hlen : 0 < av.length := List.length_pos.mpr hav
  have hNo : isNoAnswerResponse data.answer = true := by
    rw [ha, noAnswer_some_eq, hsor]; rfl
  simp [validateResponse, hT, hlen, hNo]

/-- Witness for C9: an answer containing "Sorry" together with empty
provenance resolves with the friendly rewrite. -/
theorem no_answer_pattern_characterization_witness :
    validateResponse (some patientViews)
      { answer := some "Sorry, I have no idea.", tables_used := some (TablesUsedField.arr []),
        sql_query := none, total_execution_time := none } =
      ChatOutcome.resolved
        { message := patientFriendlyMessage, model := modelName, source := sourceName,
          tablesUsed := [], sqlQuery := none, confidence := 50, executionTime := none } :=
  no_answer_pattern_characterization.2 patientViews
    { answer := some "Sorry, I have no idea.", tables_used := some (TablesUsedField.arr []),
      sql_query := none, total_execution_time := none }
    "Sorry, I have no idea." (by decide) rfl (by decide) (by decide)

/-- C10 (invalid `tables_used` JSON is silently empty): when the
`tables_used` field arrives as a string that does not parse as a JSON
array of view names, the decision is identical to the one for an absent
`tables_used` — the empty-provenance branches apply, with no parse
error raised. -/
theorem invalid_tables_json_as_empty (s : String) (av : Option (List String))
    (data : DenodoAIResponse) (h : jsonParseStringArray s = none) :
    validateResponse av { data with tables_used := some (TablesUsedField.str s) } =
      validateResponse av { data with tables_used := none } := by
  simp [validateResponse, parseTablesUsed, passThroughResolve, rawMessage, h]

/-- Witness for C10: the unparseable string "oops" behaves like an
absent `tables_used`. -/
theorem invalid_tables_json_as_empty_witness :
    jsonParseStringArray "oops" = none ∧
    validateResponse (some patientViews)
      { answer := some "V3 states that the dose is 10mg",
        tables_used := some (TablesUsedField.str "oops"),
        sql_query := none, total_execution_time := none } =
      validateResponse (some patientViews)
        { answer := some "V3 states that the dose is 10mg", tables_used := none,
          sql_query := none, total_execution_time := none } :=
  ⟨by decide,
   invalid_tables_json_as_empty "oops" (some patientViews)
     { answer := some "V3 states that the dose is 10mg", tables_used := none,
       sql_query := none, total_execution_time := none }
     (by decide)⟩

/-- C2 (allow iff subset): with a non-empty allowed-view list and a
non-empty normalized resources-used list, the call resolves with the raw
answer unchanged when every stripped identifier is allowed, and resolves
with the raw answer plus the fixed advisory suffix when some stripped
identifier is not allowed. -/
theorem allow_iff_subset (av L : List String) (data : DenodoAIResponse) (a : String)
    (hav : av ≠ []) (hL : parseTablesUsed data.tables_used = L) (hLne : L ≠ [])
    (ha : data.answer = some a) (hane : a ≠ "") :
    ((∀ t ∈ L, av.contains (stripSchema t) = true) →
      validateResponse (some av) data = ChatOutcome.resolved
        { message := a, model := modelName, source := sourceName, tablesUsed := L,
          sqlQuery := data.sql_query, confidence := confidenceFor L.length,
          executionTime := data.total_execution_time }) ∧
    ((∃ t ∈ L, av.contains (stripSchema t) = false) →
      validateResponse (some av) data = ChatOutcome.resolved
        { message := a ++ disclaimerText, model := modelName, source := sourceName,
          tablesUsed := L, sqlQuery := data.sql_query, confidence := confidenceFor L.length,
          executionTime := data.total_execution_time }) := by
  have hlen : 0 < av.length := List.length_pos.mpr hav
  have hLlen : ¬ (L.length = 0) := fun h => hLne (List.length_eq_zero.mp h)
  constructor
  · intro hsub
    have hU : unauthorizedViews av L = [] := by
      apply List.filter_eq_nil_iff.mpr
      intro t ht
      simpa using hsub t ht
    simp [validateResponse, hL, hlen, hLlen, hU, passThroughResolve, rawMessage, ha, hane]
  · rintro ⟨t, ht, hcon⟩
    have hmem : t ∈ unauthorizedViews av L := by
      simp only [unauthorizedViews, List.mem_filter]
      exact ⟨ht, by simpa using hcon⟩
    have hU : 0 < (unauthorizedViews av L).length :=
      List.length_pos.mpr (List.ne_nil_of_mem hmem)
    simp [validateResponse, hL, hlen, hLlen, hU, rawMessage, ha, hane]

/-- Witness for C2: the patient role with an authorized prefixed view
(pass-through) and with the restricted `master_safety_risk` view
(disclaimer appended). -/
theorem allow_iff_subset_witness :
    validateResponse (some patientViews)
      { answer := some "The recommended dose is 10mg.",
        tables_used := some (TablesUsedField.arr ["labeliq.interactions"]),
        sql_query := none, total_execution_time := none } =
      ChatOutcome.resolved
        { message := "The recommended dose is 10mg.", model := modelName,
          source := sourceName, tablesUsed := ["labeliq.interactions"],
          sqlQuery := none, confidence := confidenceFor 1, executionTime := none } ∧
    validateResponse (some patientViews)
      { answer := some "Technical risk summary.",
        tables_used := some (TablesUsedField.arr ["labeliq.master_safety_risk"]),
        sql_query := none, total_execution_time := none } =
      ChatOutcome.resolved
        { message := "Technical risk summary." ++ disclaimerText, model := modelName,
          source := sourceName, tablesUsed := ["labeliq.master_safety_risk"],
          sqlQuery := none, confidence := confidenceFor 1, executionTime := none } :=
  ⟨(allow_iff_subset patientViews ["labeliq.interactions"]
      { answer := some "The recommended dose is 10mg.",
        tables_used := some (TablesUsedField.arr ["labeliq.interactions"]),
        sql_query := none, total_execution_time := none }
      "The recommended dose is 10mg."
      (by decide) (by decide) (by decide) rfl (by decide)).1 (by decide),
   (allow_iff_subset patientViews ["labeliq.master_safety_risk"]
      { answer := some "Technical risk summary.",
        tables_used := some (TablesUsedField.arr ["labeliq.master_safety_risk"]),
        sql_query := none, total_execution_time := none }
      "Technical risk summary."
      (by decide) (by decide) (by decide) rfl (by decide)).2 (by decide)⟩

/-- C4 counterexample: the claim says an unrecognized role gets the view
set of the most restrictive configured role and never all nine
resources; the code falls back to the `judge` entry, which is the full
nine-view set, while the most restrictive configured role (`patient`)
has only eight. -/
theorem role_fallback_unrestricted_cex :
    getAllowedViewsForRole "intruder" = judgeViews ∧
    (getAllowedViewsForRole "intruder").length = 9 ∧
    patientViews.length = 8 ∧
    getAllowedViewsForRole "intruder" ≠ patientViews := by decide

/-- C4 as amended: the policy lookup is total — every role string maps
to one of the three configured view sets — and every role string not in
the configured map falls back to the designated default role `judge`,
whose view set is all nine resources. -/
theorem role_lookup_total_default_judge (role : String) :
    (getAllowedViewsForRole role = patientViews ∨
     getAllowedViewsForRole role = physicianViews ∨
     getAllowedViewsForRole role = judgeViews) ∧
    (role ≠ "patient" → role ≠ "physician" → role ≠ "judge" →
      getAllowedViewsForRole role = judgeViews) := by
  unfold getAllowedViewsForRole ROLE_VIEW_PERMISSIONS
  by_cases h1 : role = "patient" <;> by_cases h2 : role = "physician" <;>
    by_cases h3 : role = "judge" <;> simp [h1, h2, h3]

/-- Witness for the amended C4: the unrecognized role "intruder" gets
the `judge` view set. -/
theorem role_lookup_total_default_judge_witness :
    getAllowedViewsForRole "intruder" = judgeViews :=
  (role_lookup_total_default_judge "intruder").2 (by decide) (by decide) (by decide)

/-- C3 (code bug): the fail-closed Deny rejection carries a message that
does not start with "Access Denied:", so the `/api/chat` catch block
classifies it as a generic failure and answers HTTP 500, not the 403
with an "Access Denied:"-prefixed body that the spec and the repo's own
RBAC documents promise.  Evaluated at scenario C (empty `tables_used`,
real answer, patient role). -/
theorem deny_surfaced_as_500 :
    validateResponse (some patientViews)
      { answer := some "V3 states that the dose is 10mg",
        tables_used := some (TablesUsedField.arr []),
        sql_query := none, total_execution_time := none } =
      ChatOutcome.rejected denyMessage ∧
    startsWithStr denyMessage "Access Denied:" = false ∧
    handleChatOutcome (ChatOutcome.rejected denyMessage) =
      HttpReply.err 500 "Failed to process chat request" := by decide

lemma handleEvent_of_settled (av : Option (List String)) (st : PromiseState)
    (e : SettleEvent) (h : st.settled = true) : handleEvent av st e = st := by
  simp [handleEvent, h]

lemma foldl_of_settled (av : Option (List String)) (events : List SettleEvent)
    (st : PromiseState) (h : st.settled = true) :
    events.foldl (handleEvent av) st = st := by
  induction events with
  | nil => rfl
  | cons e es ih => rw [List.foldl_cons, handleEvent_of_settled av st e h]; exact ih

lemma handleEvent_initial (av : Option (List String)) (e : SettleEvent) :
    (handleEvent av initialPromiseState e).settled = true ∧
    (handleEvent av initialPromiseState e).outcomes.length = 1 := by
  cases e <;> simp [handleEvent, initialPromiseState]

/-- C7 (single settlement): for a single call, across every interleaving
of response-end events, request-error events and synchronous-exception
events, at most one terminal outcome is produced, and exactly one as
soon as any event fires: the first handler to run sets the `settled`
flag and every later handler returns without resolving or rejecting. -/
theorem single_settlement (av : Option (List String)) (events : List SettleEvent) :
    (runEvents av events).outcomes.length ≤ 1 ∧
    (events ≠ [] → (runEvents av events).outcomes.length = 1) := by
  cases events with
  | nil => exact ⟨by simp [runEvents, initialPromiseState], fun h => absurd rfl h⟩
  | cons e es =>
    have h1 := handleEvent_initial av e
    have hrun : runEvents av (e :: es) = handleEvent av initialPromiseState e := by
      rw [runEvents, List.foldl_cons]
      exact foldl_of_settled av es _ h1.1
    refine ⟨?_, fun _ => ?_⟩ <;> rw [hrun, h1.2]

/-- Witness for C7: a response-end event followed by a late request
error settles exactly once. -/
theorem single_settlement_witness :
    (runEvents (some patientViews)
      [SettleEvent.endEvt 200 ""
        (some { answer := some "ok", tables_used := none,
                sql_query := none, total_execution_time := none }),
       SettleEvent.errorEvt]).outcomes.length = 1 :=
  (single_settlement (some patientViews)
    [SettleEvent.endEvt 200 ""
      (some { answer := some "ok", tables_used := none,
              sql_query := none, total_execution_time := none }),
     SettleEvent.errorEvt]).2 (by decide)

lemma takeWhile_append_cons (p : Char → Bool) (l1 : List Char) (x : Char) (l2 : List Char)
    (h1 : ∀ a ∈ l1, p a = true) (hx : p x = false) :
    (l1 ++ x :: l2).takeWhile p = l1 := by
  induction l1 with
  | nil => simp [List.takeWhile_cons, hx]
  | cons a as ih =>
    have ha : p a = true := h1 a (by simp)
    rw [List.cons_append, List.takeWhile_cons, if_pos ha,
      ih (fun b hb => h1 b (by simp [hb]))]

lemma toList_append (a b : String) : (a ++ b).toList = a.toList ++ b.toList := by
  cases a; cases b; rfl

lemma mk_toList (s : String) : String.mk s.toList = s := by
  cases s; rfl

lemma stripSchema_no_dot (v : String) (hv : v.toList.contains '.' = false) :
    stripSchema v = v := by
  unfold stripSchema
  rw [hv]
  simp

lemma stripSchema_prefixed (db v : String) (hv : v.toList.contains '.' = false)
    (hne : v ≠ "") : stripSchema (db ++ "." ++ v) = v := by
  have hdot : ('.' : Char) ∉ v.toList := by simpa using hv
  have hl : (db ++ "." ++ v).toList = (db.toList ++ ['.']) ++ v.toList := by
    rw [toList_append, toList_append]; rfl
  have hcont : (db ++ "." ++ v).toList.contains '.' = true := by
    rw [hl]; simp
  have htake : ((db ++ "." ++ v).toList.reverse.takeWhile (fun c => c != '.')) =
      v.toList.reverse := by
    rw [hl]
    have hrev : ((db.toList ++ ['.']) ++ v.toList).reverse =
        v.toList.reverse ++ '.' :: db.toList.reverse := by
      simp [List.reverse_append]
    rw [hrev]
    exact takeWhile_append_cons _ _ _ _
      (fun a ha => bne_iff_ne.mpr (fun he => hdot (he ▸ List.mem_reverse.mp ha)))
      (by simp)
  unfold stripSchema
  rw [htake]
  simp [hcont, List.reverse_reverse, mk_toList, hne]

lemma unauthorized_length_congr (av : List String) {L1 L2 : List String}
    (h : L1.map stripSchema = L2.map stripSchema) :
    (unauthorizedViews av L1).length = (unauthorizedViews av L2).length := by
  have key : ∀ L : List String, (unauthorizedViews av L).length =
      ((L.map stripSchema).filter (fun s => !(av.contains s))).length := by
    intro L
    rw [unauthorizedViews, List.filter_map, List.length_map]
    rfl
  rw [key L1, key L2, h]

/-- C6 (prefix-insensitive comparison): stripping maps a
namespace-prefixed identifier to the identifier itself, the validation
decision depends on the reported identifiers only through their stripped
suffixes, and in particular "labeliq.master_safety_risk" and
"master_safety_risk" denote the same resource. -/
theorem schema_insensitive_decision :
    (∀ db v : String, v.toList.contains '.' = false → v ≠ "" →
      stripSchema (db ++ "." ++ v) = stripSchema v) ∧
    (∀ (av : Option (List String)) (data : DenodoAIResponse) (L1 L2 : List String),
      L1.map stripSchema = L2.map stripSchema →
      validateResponse av (setTables data L1) =
        setOutcomeTables (validateResponse av (setTables data L2)) L1) ∧
    (stripSchema "labeliq.master_safety_risk" = "master_safety_risk" ∧
     stripSchema "master_safety_risk" = "master_safety_risk") := by
  refine ⟨?_, ?_, by decide⟩
  · intro db v hv hne
    rw [stripSchema_prefixed db v hv hne, stripSchema_no_dot v hv]
  · intro av data L1 L2 h
    have hlen : L1.length = L2.length := by
      have := congrArg List.length h
      simpa using this
    cases av with
    | none =>
      simp [validateResponse, setTables, parseTablesUsed, passThroughResolve,
        setOutcomeTables, rawMessage, hlen]
    | some avl =>
      by_cases hA : 0 < avl.length
      · by_cases h1 : L1.length = 0
        · have e1 : L1 = [] := List.length_eq_zero.mp h1
          have e2 : L2 = [] := List.length_eq_zero.mp (hlen ▸ h1)
          subst e1; subst e2
          by_cases hNo : isNoAnswerResponse data.answer = true <;>
            simp [validateResponse, setTables, parseTablesUsed, hA, hNo, setOutcomeTables]
        · have h2 : ¬ (L2.length = 0) := by rw [← hlen]; exact h1
          have hU := unauthorized_length_congr avl h
          by_cases hU1 : 0 < (unauthorizedViews avl L1).length
          · have hU2 : 0 < (unauthorizedViews avl L2).length := hU ▸ hU1
            simp [validateResponse, setTables, parseTablesUsed, hA, h1, h2, hU1, hU2,
              setOutcomeTables, rawMessage, hlen]
          · have hU2 : ¬ 0 < (unauthorizedViews avl L2).length := by rw [← hU]; exact hU1
            simp [validateResponse, setTables, parseTablesUsed, hA, h1, h2, hU1, hU2,
              setOutcomeTables, passThroughResolve, rawMessage, hlen]
      · simp [validateResponse, setTables, parseTablesUsed, hA, setOutcomeTables,
          passThroughResolve, rawMessage, hlen]

/-- Witness for C6: prefixing "interactions" with "labeliq." changes
neither its stripped name nor the decision. -/
theorem schema_insensitive_decision_witness :
    stripSchema ("labeliq" ++ "." ++ "interactions") = stripSchema "interactions" ∧
    validateResponse (some patientViews)
      (setTables { answer := some "ok", tables_used := none, sql_query := none,
                   total_execution_time := none } ["labeliq.interactions"]) =
      setOutcomeTables
        (validateResponse (some patientViews)
          (setTables { answer := some "ok", tables_used := none, sql_query := none,
                       total_execution_time := none } ["interactions"]))
        ["labeliq.interactions"] :=
  ⟨schema_insensitive_decision.1 "labeliq" "interactions" (by decide) (by decide),
   schema_insensitive_decision.2.1 (some patientViews)
     { answer := some "ok", tables_used := none, sql_query := none,
       total_execution_time := none }
     ["labeliq.interactions"] ["interactions"] (by decide)⟩
